import Mathlib

/-!
Shallow embedding of the Signed Offer Fill Engine of the DIVA protocol
scripts: the proportional fill-amount computation, the allowance-setting
logic, and the `_checkConditions` preflight validation of
`fillOfferCreateContingentPool_from_api`, together with theorems settling
the specification's claims about them.

Monetary quantities (BigNumber values in the source) are modelled as `Nat`:
the source only ever holds non-negative integer token amounts, and
BigNumber `div` truncates toward zero, which on non-negative operands is
`Nat` division.  Addresses (hex strings compared with `!=`/`===` in the
source) are modelled as an abstract type with decidable equality, here
`Nat`, with the distinguished zero address `ethers.constants.AddressZero`
modelled as `0`.
-/

/-- Addresses: the source compares address strings for equality only. -/
abbrev Address : Type := Nat

/-- Model of `ethers.constants.AddressZero`. -/
def addressZero : Address := 0

/-- Offer status enum of the settlement contract, as read by the script:
0: INVALID, 1: CANCELLED, 2: FILLED, 3: EXPIRED, 4: FILLABLE. -/
inductive OfferStatus where
  | invalid
  | cancelled
  | filled
  | expired
  | fillable
  deriving DecidableEq, Repr

/-- The fields of `OfferCreateContingentPool` read by the fill engine
(`maker`, `taker`, `makerCollateralAmount`, `takerCollateralAmount`,
`minimumTakerFillAmount`); the remaining fields of the offer are never
read by the logic under verification. -/
structure OfferCreateContingentPool where
  maker : Address
  taker : Address
  makerCollateralAmount : Nat
  takerCollateralAmount : Nat
  minimumTakerFillAmount : Nat
  deriving DecidableEq, Repr

/-- The `offerInfo` part of the relevant-state query result returned by
`diva.getOfferRelevantStateCreateContingentPool`. -/
structure OfferInfo where
  status : OfferStatus
  takerFilledAmount : Nat
  deriving DecidableEq, Repr

/-- The relevant-state query result returned by
`diva.getOfferRelevantStateCreateContingentPool`, an external read-only
collaborator of the script. -/
structure RelevantStateParams where
  offerInfo : OfferInfo
  isValidInputParamsCreateContingentPool : Bool
  actualTakerFillableAmount : Nat
  deriving DecidableEq, Repr

/-- The maker-side fill amount computed in `main`:
`BigNumber.from(offer.makerCollateralAmount).mul(takerFillAmount).div(offer.takerCollateralAmount)`. -/
def makerFillAmount (offer : OfferCreateContingentPool)
    (takerFillAmount : Nat) : Nat :=
  offer.makerCollateralAmount * takerFillAmount / offer.takerCollateralAmount

/-- The combined self-fill collateral amount computed in `main` when
`taker.address === offer.maker`:
`BigNumber.from(offer.makerCollateralAmount).add(offer.takerCollateralAmount).mul(takerFillAmount).div(offer.takerCollateralAmount)`. -/
def totalCollateralFillAmount (offer : OfferCreateContingentPool)
    (takerFillAmount : Nat) : Nat :=
  (offer.makerCollateralAmount + offer.takerCollateralAmount) *
    takerFillAmount / offer.takerCollateralAmount

/-- Error taxonomy of the preflight validation: one constructor per
`throw new Error(...)` site of `_checkConditions`, in source order. -/
inductive FillError where
  | statusInvalid
  | statusCancelled
  | statusFilled
  | statusExpired
  | invalidParameters
  | exceedsFillable
  | invalidSignature
  | unauthorized
  | belowMinimum
  | insufficientTakerBalance
  | insufficientMakerBalance
  deriving DecidableEq, Repr

/-- The `_checkConditions` auxiliary function of the fill script.  Each
branch mirrors one `if (...) throw` of the source, in source order.
Signature recovery (`ethers.utils.verifyTypedData`) is an external
collaborator; its result enters as the `recoveredAddress` argument, and
the comparison with `offer.maker` is the source's. -/
def checkConditions (relevantStateParams : RelevantStateParams)
    (offer : OfferCreateContingentPool) (recoveredAddress : Address)
    (userAddress : Address) (takerFillAmount makerFillAmt : Nat)
    (takerCollateralTokenBalance makerCollateralTokenBalance : Nat) :
    Except FillError Unit :=
  if relevantStateParams.offerInfo.status = OfferStatus.invalid then
    .error .statusInvalid
  else if relevantStateParams.offerInfo.status = OfferStatus.cancelled then
    .error .statusCancelled
  else if relevantStateParams.offerInfo.status = OfferStatus.filled then
    .error .statusFilled
  else if relevantStateParams.offerInfo.status = OfferStatus.expired then
    .error .statusExpired
  else if !relevantStateParams.isValidInputParamsCreateContingentPool then
    .error .invalidParameters
  else if relevantStateParams.actualTakerFillableAmount < takerFillAmount then
    .error .exceedsFillable
  else if recoveredAddress ≠ offer.maker then
    .error .invalidSignature
  else if offer.taker ≠ addressZero ∧ userAddress ≠ offer.taker then
    .error .unauthorized
  else if relevantStateParams.offerInfo.takerFilledAmount = 0 ∧
      takerFillAmount < offer.minimumTakerFillAmount then
    .error .belowMinimum
  else if takerCollateralTokenBalance < takerFillAmount then
    .error .insufficientTakerBalance
  else if makerCollateralTokenBalance < makerFillAmt then
    .error .insufficientMakerBalance
  else
    .ok ()

/-- Spec-side chained validator: evaluate a list of (failure condition,
error) pairs in order and stop at the first condition that holds. -/
def firstFailure : List (Bool × FillError) → Except FillError Unit
  | [] => .ok ()
  | (c, e) :: rest => if c then .error e else firstFailure rest

/-- Spec-side rendering of the eight-step validation order of the spec
(status, structural parameters, exceeds-remaining-fillable, signature,
taker authorization, first-fill minimum, taker balance, maker balance),
to be compared with the source-side `checkConditions`. -/
def validateSpec (relevantStateParams : RelevantStateParams)
    (offer : OfferCreateContingentPool) (recoveredAddress : Address)
    (userAddress : Address) (takerFillAmount makerFillAmt : Nat)
    (takerCollateralTokenBalance makerCollateralTokenBalance : Nat) :
    Except FillError Unit :=
  firstFailure
    [ (relevantStateParams.offerInfo.status == OfferStatus.invalid,
        .statusInvalid),
      (relevantStateParams.offerInfo.status == OfferStatus.cancelled,
        .statusCancelled),
      (relevantStateParams.offerInfo.status == OfferStatus.filled,
        .statusFilled),
      (relevantStateParams.offerInfo.status == OfferStatus.expired,
        .statusExpired),
      (!relevantStateParams.isValidInputParamsCreateContingentPool,
        .invalidParameters),
      (decide (relevantStateParams.actualTakerFillableAmount <
        takerFillAmount), .exceedsFillable),
      (recoveredAddress != offer.maker, .invalidSignature),
      (offer.taker != addressZero && userAddress != offer.taker,
        .unauthorized),
      (relevantStateParams.offerInfo.takerFilledAmount == 0 &&
        decide (takerFillAmount < offer.minimumTakerFillAmount),
        .belowMinimum),
      (decide (takerCollateralTokenBalance < takerFillAmount),
        .insufficientTakerBalance),
      (decide (makerCollateralTokenBalance < makerFillAmt),
        .insufficientMakerBalance) ]

/-- The allowance-setting step of `main` for one party: `required` is the
computed fill amount of that party, `allowance` the current allowance read
from the collateral token.  If the allowance is insufficient the script
calls `approve(required.add(1))` and re-reads the allowance; the ERC20
collaborator's `approve(x)` sets the allowance to exactly `x`, so with no
intervening state change the re-read returns `required + 1`.  The result
pairs the allowance after the step with the list of approval amounts
issued. -/
def ensureAllowance (required allowance : Nat) : Nat × List Nat :=
  if allowance < required then (required + 1, [required + 1])
  else (allowance, [])

/-- Observable events of the fill procedure `main`, in execution order:
ERC20 `approve` transactions, the outcome of `_checkConditions`, and the
`fillOfferCreateContingentPool` submission. -/
inductive FillEvent where
  | approve (owner : Address) (amount : Nat)
  | validationOk
  | validationFailed (e : FillError)
  | fillSubmitted
  deriving DecidableEq, Repr

/-- Whether an event is an allowance-increasing `approve` transaction. -/
def FillEvent.isApprove : FillEvent → Bool
  | .approve _ _ => true
  | _ => false

/-- The `approve` transactions issued by the allowance block of `main`:
the self-fill branch (`taker.address === offer.maker`) sizes a single
approval against `totalCollateralFillAmount + 1`, the other branch issues
a maker approval sized `makerFillAmount + 1` and a taker approval sized
`takerFillAmount + 1`, each only when the corresponding current allowance
is insufficient. -/
def approvalEvents (offer : OfferCreateContingentPool)
    (takerAddress : Address) (takerFillAmount : Nat)
    (allowanceMaker allowanceTaker : Nat) : List FillEvent :=
  if takerAddress = offer.maker then
    if allowanceMaker < totalCollateralFillAmount offer takerFillAmount then
      [.approve offer.maker (totalCollateralFillAmount offer takerFillAmount + 1)]
    else []
  else
    (if allowanceMaker < makerFillAmount offer takerFillAmount then
      [.approve offer.maker (makerFillAmount offer takerFillAmount + 1)]
    else []) ++
    (if allowanceTaker < takerFillAmount then
      [.approve takerAddress (takerFillAmount + 1)]
    else [])

/-- The events following the allowance block: `_checkConditions` either
throws (aborting the script) or returns, after which `main` submits the
fill transaction. -/
def validationEvents (r : Except FillError Unit) : List FillEvent :=
  match r with
  | .ok _ => [.validationOk, .fillSubmitted]
  | .error e => [.validationFailed e]

/-- Event trace of `main` (lines 96-193 of the fill script): the allowance
block runs first, then `_checkConditions`, then the fill submission. -/
def fillOfferTrace (relevantStateParams : RelevantStateParams)
    (offer : OfferCreateContingentPool) (recoveredAddress : Address)
    (takerAddress : Address) (takerFillAmount : Nat)
    (allowanceMaker allowanceTaker : Nat)
    (takerBalance makerBalance : Nat) : List FillEvent :=
  approvalEvents offer takerAddress takerFillAmount allowanceMaker
      allowanceTaker ++
    validationEvents (checkConditions relevantStateParams offer
      recoveredAddress takerAddress takerFillAmount
      (makerFillAmount offer takerFillAmount) takerBalance makerBalance)

/-- The property asserted by the spec about the fill procedure: every
allowance-increasing action occurs only after the validation has
succeeded. -/
def approvalsOnlyAfterValidation (t : List FillEvent) : Prop :=
  ∀ i : Fin t.length, (t.get i).isApprove = true →
    ∃ j : Fin t.length, (j : Nat) < (i : Nat) ∧ t.get j = .validationOk

/-- C1: the computed maker-side fill amount equals
floor(makerCollateralAmount * requestedTakerAmount / takerCollateralAmount)
in exact rational arithmetic, under the precondition
takerCollateralAmount > 0. -/
theorem makerFillAmount_eq_floor (offer : OfferCreateContingentPool)
    (requestedTakerAmount : Nat)
    (ht : 0 < offer.takerCollateralAmount) :
    makerFillAmount offer requestedTakerAmount =
      ⌊((offer.makerCollateralAmount : ℚ) * (requestedTakerAmount : ℚ)) /
        (offer.takerCollateralAmount : ℚ)⌋₊ := by
  rw [makerFillAmount,
    show ((offer.makerCollateralAmount : ℚ) * (requestedTakerAmount : ℚ)) =
      ((offer.makerCollateralAmount * requestedTakerAmount : ℕ) : ℚ) by
        push_cast; ring,
    Nat.floor_div_nat, Nat.floor_natCast]

/-- Witness for C1 at a concrete offer and fill amount. -/
theorem makerFillAmount_eq_floor_witness :
    0 < (OfferCreateContingentPool.mk 1 0 100 50 10).takerCollateralAmount ∧
    makerFillAmount ⟨1, 0, 100, 50, 10⟩ 30 =
      ⌊(((OfferCreateContingentPool.mk 1 0 100 50 10).makerCollateralAmount : ℚ) *
        ((30 : Nat) : ℚ)) /
        ((OfferCreateContingentPool.mk 1 0 100 50 10).takerCollateralAmount : ℚ)⌋₊ :=
  ⟨by decide, makerFillAmount_eq_floor ⟨1, 0, 100, 50, 10⟩ 30 (by decide)⟩

/-- C4: with positive makerCollateralAmount and takerCollateralAmount and
an in-range requested amount, the computed maker amount equals the full
makerCollateralAmount exactly when the requested amount equals the full
takerCollateralAmount. -/
theorem makerFillAmount_full_fill_iff (offer : OfferCreateContingentPool)
    (requestedTakerAmount : Nat)
    (hm : 0 < offer.makerCollateralAmount)
    (ht : 0 < offer.takerCollateralAmount)
    (hr : requestedTakerAmount ≤ offer.takerCollateralAmount) :
    makerFillAmount offer requestedTakerAmount =
        offer.makerCollateralAmount ↔
      requestedTakerAmount = offer.takerCollateralAmount := by
  constructor
  · intro h
    by_contra hne
    have hlt : requestedTakerAmount < offer.takerCollateralAmount :=
      lt_of_le_of_ne hr hne
    have hprod : offer.makerCollateralAmount * requestedTakerAmount <
        offer.makerCollateralAmount * offer.takerCollateralAmount :=
      mul_lt_mul_of_pos_left hlt hm
    have : makerFillAmount offer requestedTakerAmount <
        offer.makerCollateralAmount := by
      rw [makerFillAmount, Nat.div_lt_iff_lt_mul ht]
      exact hprod
    omega
  · intro h
    rw [makerFillAmount, h, Nat.mul_div_assoc _ (dvd_refl _),
      Nat.div_self ht, mul_one]

/-- Witness for C4 at a concrete offer: the full fill reproduces the
declared maker amount. -/
theorem makerFillAmount_full_fill_iff_witness :
    makerFillAmount ⟨1, 0, 100, 50, 10⟩ 50 =
        (OfferCreateContingentPool.mk 1 0 100 50 10).makerCollateralAmount ↔
      (50 : Nat) = (OfferCreateContingentPool.mk 1 0 100 50 10).takerCollateralAmount :=
  makerFillAmount_full_fill_iff ⟨1, 0, 100, 50, 10⟩ 50 (by decide) (by decide)
    (by decide)

/-- C5: the self-fill combined collateral amount equals the sum of the two
independently computed legs. -/
theorem totalCollateralFillAmount_eq_sum_of_legs
    (offer : OfferCreateContingentPool) (requestedTakerAmount : Nat)
    (ht : 0 < offer.takerCollateralAmount) :
    totalCollateralFillAmount offer requestedTakerAmount =
      makerFillAmount offer requestedTakerAmount +
        offer.takerCollateralAmount * requestedTakerAmount /
          offer.takerCollateralAmount := by
  rw [totalCollateralFillAmount, makerFillAmount,
    Nat.mul_div_cancel_left _ ht, add_mul,
    mul_comm offer.takerCollateralAmount requestedTakerAmount,
    Nat.add_mul_div_right _ _ ht]

/-- Witness for C5 at a concrete offer and fill amount. -/
theorem totalCollateralFillAmount_eq_sum_of_legs_witness :
    totalCollateralFillAmount ⟨1, 0, 100, 50, 10⟩ 30 =
      makerFillAmount ⟨1, 0, 100, 50, 10⟩ 30 +
        (OfferCreateContingentPool.mk 1 0 100 50 10).takerCollateralAmount * 30 /
          (OfferCreateContingentPool.mk 1 0 100 50 10).takerCollateralAmount :=
  totalCollateralFillAmount_eq_sum_of_legs ⟨1, 0, 100, 50, 10⟩ 30 (by decide)

/-- C6: the computed maker amount is monotone non-decreasing in the
requested taker amount. -/
theorem makerFillAmount_mono (offer : OfferCreateContingentPool)
    (a b : Nat) (ht : 0 < offer.takerCollateralAmount) (hab : a ≤ b) :
    makerFillAmount offer a ≤ makerFillAmount offer b :=
  Nat.div_le_div_right (Nat.mul_le_mul (le_refl _) hab)

/-- Witness for C6 at a concrete offer and pair of fill amounts. -/
theorem makerFillAmount_mono_witness :
    makerFillAmount ⟨1, 0, 100, 50, 10⟩ 20 ≤
      makerFillAmount ⟨1, 0, 100, 50, 10⟩ 30 :=
  makerFillAmount_mono ⟨1, 0, 100, 50, 10⟩ 20 30 (by decide) (by decide)

/-- C7: the allowance step approves exactly required + 1 precisely when the
current allowance is below the requirement, does nothing when the
allowance is sufficient, and a second run immediately after the first
issues no further approval, so two successive runs approve at most once. -/
theorem ensureAllowance_idempotent (required allowance : Nat) :
    ((ensureAllowance required allowance).2 = [required + 1] ↔
      allowance < required) ∧
    ((ensureAllowance required allowance).2 = [] ↔ required ≤ allowance) ∧
    (ensureAllowance required
      (ensureAllowance required allowance).1).2 = [] ∧
    (ensureAllowance required allowance).2.length +
      (ensureAllowance required
        (ensureAllowance required allowance).1).2.length ≤ 1 := by
  unfold ensureAllowance
  split <;> simp_all

/-- C2: the source validation equals the spec's ordered, short-circuiting
eight-step chain, and in particular an offer whose status is Expired while
the taker balance is also insufficient is always reported as StatusExpired
and never as the balance error. -/
theorem checkConditions_order (relevantStateParams : RelevantStateParams)
    (offer : OfferCreateContingentPool) (recoveredAddress : Address)
    (userAddress : Address) (takerFillAmount makerFillAmt : Nat)
    (takerCollateralTokenBalance makerCollateralTokenBalance : Nat) :
    (checkConditions relevantStateParams offer recoveredAddress userAddress
        takerFillAmount makerFillAmt takerCollateralTokenBalance
        makerCollateralTokenBalance =
      validateSpec relevantStateParams offer recoveredAddress userAddress
        takerFillAmount makerFillAmt takerCollateralTokenBalance
        makerCollateralTokenBalance) ∧
    (relevantStateParams.offerInfo.status = OfferStatus.expired →
      takerCollateralTokenBalance < takerFillAmount →
      checkConditions relevantStateParams offer recoveredAddress userAddress
        takerFillAmount makerFillAmt takerCollateralTokenBalance
        makerCollateralTokenBalance = .error .statusExpired) := by
  constructor
  · simp only [checkConditions, validateSpec, firstFailure, beq_iff_eq,
      bne_iff_ne, Bool.and_eq_true, decide_eq_true_eq, ne_eq]
  · intro hst _
    simp [checkConditions, hst]

/-- Witness for C2: a concrete offer that is Expired and whose taker
balance is insufficient is reported as StatusExpired. -/
theorem checkConditions_order_witness :
    checkConditions ⟨⟨.expired, 0⟩, true, 100⟩ ⟨1, 0, 100, 50, 10⟩ 1 2 10 20
        5 100 = .error .statusExpired :=
  (checkConditions_order ⟨⟨.expired, 0⟩, true, 100⟩ ⟨1, 0, 100, 50, 10⟩ 1 2
    10 20 5 100).2 rfl (by decide)

/-- C3: when the status, parameter, fillable-amount, signature and
authorization checks pass, the validation reports BelowMinimum exactly
when the cumulative taker filled amount is zero and the requested amount
is below the offer minimum; once the filled amount is positive, a request
below the minimum passes this check, and passes outright when the balance
checks also hold. -/
theorem checkConditions_belowMinimum_iff
    (relevantStateParams : RelevantStateParams)
    (offer : OfferCreateContingentPool) (recoveredAddress : Address)
    (userAddress : Address) (takerFillAmount makerFillAmt : Nat)
    (takerCollateralTokenBalance makerCollateralTokenBalance : Nat)
    (hstatus : relevantStateParams.offerInfo.status = OfferStatus.fillable)
    (hvalid : relevantStateParams.isValidInputParamsCreateContingentPool =
      true)
    (hfill : takerFillAmount ≤ relevantStateParams.actualTakerFillableAmount)
    (hsig : recoveredAddress = offer.maker)
    (hauth : offer.taker = addressZero ∨ userAddress = offer.taker) :
    (checkConditions relevantStateParams offer recoveredAddress userAddress
        takerFillAmount makerFillAmt takerCollateralTokenBalance
        makerCollateralTokenBalance = .error .belowMinimum ↔
      relevantStateParams.offerInfo.takerFilledAmount = 0 ∧
        takerFillAmount < offer.minimumTakerFillAmount) ∧
    (0 < relevantStateParams.offerInfo.takerFilledAmount →
      ¬ takerCollateralTokenBalance < takerFillAmount →
      ¬ makerCollateralTokenBalance < makerFillAmt →
      checkConditions relevantStateParams offer recoveredAddress userAddress
        takerFillAmount makerFillAmt takerCollateralTokenBalance
        makerCollateralTokenBalance = .ok ()) := by
  have hnfill : ¬ relevantStateParams.actualTakerFillableAmount <
      takerFillAmount := Nat.not_lt.mpr hfill
  have hnauth : ¬ (offer.taker ≠ addressZero ∧ userAddress ≠ offer.taker) := by
    rcases hauth with h | h <;> simp [h]
  constructor
  · simp only [checkConditions, hstatus, hvalid, hsig, hnfill, hnauth,
      if_false, if_neg hnauth, reduceCtorEq, if_neg hnfill]
    simp only [reduceIte, Bool.not_true, Bool.false_eq_true, if_false,
      ne_eq, not_true_eq_false]
    split
    · simp_all
    · split
      · simp_all
      · split <;> simp_all
  · intro hpos htb hmb
    simp only [checkConditions, hstatus, hvalid, hsig, hnauth, hnfill]
    simp only [reduceCtorEq, if_false, reduceIte, Bool.not_true,
      Bool.false_eq_true, ne_eq, not_true_eq_false]
    have hmin : ¬ (relevantStateParams.offerInfo.takerFilledAmount = 0 ∧
        takerFillAmount < offer.minimumTakerFillAmount) := by
      intro hc
      omega
    simp [hmin, htb, hmb]

/-- Witness for C3: a concrete first fill below the minimum is rejected
with BelowMinimum. -/
theorem checkConditions_belowMinimum_iff_witness :
    checkConditions ⟨⟨.fillable, 0⟩, true, 100⟩ ⟨1, 0, 100, 50, 10⟩ 1 2 5 10
        100 100 = .error .belowMinimum :=
  (checkConditions_belowMinimum_iff ⟨⟨.fillable, 0⟩, true, 100⟩
    ⟨1, 0, 100, 50, 10⟩ 1 2 5 10 100 100 rfl rfl (by decide) rfl
    (Or.inl rfl)).1.mpr ⟨rfl, by decide⟩

/-- C9: when the status, parameter, fillable-amount and signature checks
pass, the taker-authorization check fails exactly when the offer's taker
field is a non-zero address different from the requester; a zero (wildcard)
taker admits every requester. -/
theorem checkConditions_unauthorized_iff
    (relevantStateParams : RelevantStateParams)
    (offer : OfferCreateContingentPool) (recoveredAddress : Address)
    (userAddress : Address) (takerFillAmount makerFillAmt : Nat)
    (takerCollateralTokenBalance makerCollateralTokenBalance : Nat)
    (hstatus : relevantStateParams.offerInfo.status = OfferStatus.fillable)
    (hvalid : relevantStateParams.isValidInputParamsCreateContingentPool =
      true)
    (hfill : takerFillAmount ≤ relevantStateParams.actualTakerFillableAmount)
    (hsig : recoveredAddress = offer.maker) :
    checkConditions relevantStateParams offer recoveredAddress userAddress
        takerFillAmount makerFillAmt takerCollateralTokenBalance
        makerCollateralTokenBalance = .error .unauthorized ↔
      offer.taker ≠ addressZero ∧ userAddress ≠ offer.taker := by
  have hnfill : ¬ relevantStateParams.actualTakerFillableAmount <
      takerFillAmount := Nat.not_lt.mpr hfill
  simp only [checkConditions, hstatus, hvalid, hsig, hnfill]
  simp only [reduceCtorEq, if_false, reduceIte, Bool.not_true,
    Bool.false_eq_true, ne_eq, not_true_eq_false]
  split
  · simp_all
  · split
    · simp_all
    · split
      · simp_all
      · split <;> simp_all

/-- Witness for C9: a concrete offer reserved for taker address 3 rejects
requester address 2 with Unauthorized. -/
theorem checkConditions_unauthorized_iff_witness :
    checkConditions ⟨⟨.fillable, 0⟩, true, 100⟩ ⟨1, 3, 100, 50, 0⟩ 1 2 20 40
        100 100 = .error .unauthorized :=
  (checkConditions_unauthorized_iff ⟨⟨.fillable, 0⟩, true, 100⟩
    ⟨1, 3, 100, 50, 0⟩ 1 2 20 40 100 100 rfl rfl (by decide) rfl).mpr
    ⟨by decide, by decide⟩

/-- C10: the balance checks of the validation are per-leg even in the
self-fill case (requester equals the offer maker, one shared balance): a
shared balance at least the requested taker amount and at least the
computed maker amount passes, with no comparison against the combined
self-fill amount; concretely, an offer with both legs 50 at full fill and
a shared balance of 60 passes validation although 60 is below the combined
amount 100. -/
theorem checkConditions_selfFill_per_leg :
    (∀ (relevantStateParams : RelevantStateParams)
      (offer : OfferCreateContingentPool) (userAddress : Address)
      (takerFillAmount balance : Nat),
      relevantStateParams.offerInfo.status = OfferStatus.fillable →
      relevantStateParams.isValidInputParamsCreateContingentPool = true →
      takerFillAmount ≤ relevantStateParams.actualTakerFillableAmount →
      (offer.taker = addressZero ∨ userAddress = offer.taker) →
      ¬ (relevantStateParams.offerInfo.takerFilledAmount = 0 ∧
        takerFillAmount < offer.minimumTakerFillAmount) →
      userAddress = offer.maker →
      ¬ balance < takerFillAmount →
      ¬ balance < makerFillAmount offer takerFillAmount →
      checkConditions relevantStateParams offer offer.maker userAddress
        takerFillAmount (makerFillAmount offer takerFillAmount) balance
        balance = .ok ()) ∧
    (checkConditions ⟨⟨.fillable, 0⟩, true, 50⟩ ⟨5, 5, 50, 50, 0⟩ 5 5 50
        (makerFillAmount ⟨5, 5, 50, 50, 0⟩ 50) 60 60 = .ok () ∧
      50 ≤ 60 ∧ makerFillAmount ⟨5, 5, 50, 50, 0⟩ 50 ≤ 60 ∧
      60 < totalCollateralFillAmount ⟨5, 5, 50, 50, 0⟩ 50) := by
  constructor
  · intro relevantStateParams offer userAddress takerFillAmount balance
      hstatus hvalid hfill hauth hmin _ htb hmb
    have hnfill : ¬ relevantStateParams.actualTakerFillableAmount <
        takerFillAmount := Nat.not_lt.mpr hfill
    have hnauth : ¬ (offer.taker ≠ addressZero ∧
        userAddress ≠ offer.taker) := by
      rcases hauth with h | h <;> simp [h]
    simp [checkConditions, hstatus, hvalid, hnfill, hnauth, hmin, htb, hmb]
  · exact ⟨rfl, by decide, by decide, by decide⟩

/-- Witness for C10: the per-leg conjunct applied at the concrete self-fill
instance. -/
theorem checkConditions_selfFill_per_leg_witness :
    checkConditions ⟨⟨.fillable, 20⟩, true, 30⟩ ⟨5, 5, 50, 50, 0⟩ 5 5 30
        (makerFillAmount ⟨5, 5, 50, 50, 0⟩ 30) 40 40 = .ok () :=
  checkConditions_selfFill_per_leg.1 ⟨⟨.fillable, 20⟩, true, 30⟩
    ⟨5, 5, 50, 50, 0⟩ 5 30 40 rfl rfl (by decide) (Or.inr rfl) (by decide)
    rfl (by decide) (by decide)

/-- Every event of the allowance block is an approve transaction. -/
theorem approvalEvents_isApprove (offer : OfferCreateContingentPool)
    (takerAddress : Address) (takerFillAmount : Nat)
    (allowanceMaker allowanceTaker : Nat) :
    ∀ e ∈ approvalEvents offer takerAddress takerFillAmount allowanceMaker
      allowanceTaker, e.isApprove = true := by
  intro e he
  unfold approvalEvents at he
  split at he
  · split at he <;> simp_all [FillEvent.isApprove]
  · simp only [List.mem_append] at he
    rcases he with h | h <;> split at h <;> simp_all [FillEvent.isApprove]

/-- No event following the allowance block is an approve transaction. -/
theorem validationEvents_not_approve (r : Except FillError Unit) :
    ∀ e ∈ validationEvents r, e.isApprove = false := by
  intro e he
  cases r with
  | ok u =>
    simp only [validationEvents, List.mem_cons, List.not_mem_nil,
      or_false] at he
    rcases he with h | h <;> subst h <;> rfl
  | error ex =>
    simp only [validationEvents, List.mem_cons, List.not_mem_nil,
      or_false] at he
    subst he; rfl

/-- Counterexample to C8: at a concrete input whose maker allowance is
insufficient and whose offer status is Expired, the fill procedure issues
an allowance-increasing approve transaction although the validation never
succeeds, so allowance assurance is not performed only after the eight
validation checks have passed. -/
theorem fillOfferTrace_approval_without_validation :
    ¬ approvalsOnlyAfterValidation
      (fillOfferTrace ⟨⟨.expired, 0⟩, true, 100⟩ ⟨1, 0, 100, 50, 10⟩ 1 2 10
        0 50 100 100) := by
  unfold approvalsOnlyAfterValidation
  decide

/-- C8 amended: in the fill procedure the allowance block runs before the
preflight validation, not after it: the approve transactions of the trace
are exactly those determined by the current allowances (independently of
the validation outcome), every event up to that point is an approve, and
no approve occurs from the validation outcome onwards. -/
theorem fillOfferTrace_allowance_first
    (relevantStateParams : RelevantStateParams)
    (offer : OfferCreateContingentPool) (recoveredAddress : Address)
    (takerAddress : Address) (takerFillAmount : Nat)
    (allowanceMaker allowanceTaker : Nat)
    (takerBalance makerBalance : Nat) :
    ((fillOfferTrace relevantStateParams offer recoveredAddress takerAddress
        takerFillAmount allowanceMaker allowanceTaker takerBalance
        makerBalance).filter (fun e => e.isApprove) =
      approvalEvents offer takerAddress takerFillAmount allowanceMaker
        allowanceTaker) ∧
    (∀ e ∈ (fillOfferTrace relevantStateParams offer recoveredAddress
        takerAddress takerFillAmount allowanceMaker allowanceTaker
        takerBalance makerBalance).take
          (approvalEvents offer takerAddress takerFillAmount allowanceMaker
            allowanceTaker).length, e.isApprove = true) ∧
    (∀ e ∈ (fillOfferTrace relevantStateParams offer recoveredAddress
        takerAddress takerFillAmount allowanceMaker allowanceTaker
        takerBalance makerBalance).drop
          (approvalEvents offer takerAddress takerFillAmount allowanceMaker
            allowanceTaker).length, e.isApprove = false) := by
  refine ⟨?_, ?_, ?_⟩
  · rw [fillOfferTrace, List.filter_append,
      List.filter_eq_self.mpr (approvalEvents_isApprove offer takerAddress
        takerFillAmount allowanceMaker allowanceTaker),
      List.filter_eq_nil_iff.mpr ?_, List.append_nil]
    intro e he
    simp [validationEvents_not_approve _ e he]
  · rw [fillOfferTrace, List.take_left]
    exact approvalEvents_isApprove offer takerAddress takerFillAmount
      allowanceMaker allowanceTaker
  · rw [fillOfferTrace, List.drop_left]
    exact validationEvents_not_approve _

/-- Witness for the amended C8 at a concrete input: the approvals of the
trace are the allowance-determined ones, and the event after them (the
validation outcome) is not an approve. -/
theorem fillOfferTrace_allowance_first_witness :
    ((fillOfferTrace ⟨⟨.expired, 0⟩, true, 100⟩ ⟨1, 3, 100, 50, 10⟩ 1 2 10
        0 50 100 100).filter (fun e => e.isApprove) =
      approvalEvents ⟨1, 3, 100, 50, 10⟩ 2 10 0 50) ∧
    FillEvent.isApprove (.validationFailed .statusExpired) = false :=
  ⟨(fillOfferTrace_allowance_first ⟨⟨.expired, 0⟩, true, 100⟩
      ⟨1, 3, 100, 50, 10⟩ 1 2 10 0 50 100 100).1,
    (fillOfferTrace_allowance_first ⟨⟨.expired, 0⟩, true, 100⟩
      ⟨1, 3, 100, 50, 10⟩ 1 2 10 0 50 100 100).2.2
      (.validationFailed .statusExpired) (by decide)⟩
